import Mathlib

/-!
Verification of the dispd encoder session controller (src/disp/dispd-encoder.c).

The development shallowly embeds the controller: the `struct dispd_encoder`
record, its reference counting (`dispd_encoder_ref` / `dispd_encoder_unref` /
`dispd_encoder_cleanup`), the lifecycle state machine
(`dispd_encoder_set_state`, `on_encoder_properties_changed`), the handshake
callback (`on_unique_readable`), the RPC wrappers
(`dispd_encoder_call` / `configure` / `start` / `pause` / `stop`) and the
supervision callbacks (`on_child_terminated`, `on_encoder_disappeared`,
`on_child_term_timeout`).  Event-loop registrations and bus slots are modelled
as boolean fields of the record; real side effects (signals, descriptors)
are modelled by counting kill attempts and recording observer invocations.
-/

namespace DispdEncoder

/-- Lifecycle states, mirroring `enum dispd_encoder_state` in the order used by
`state_to_name` and by the integer codes of `on_encoder_properties_changed`. -/
inductive EncState
  | null
  | spawned
  | configured
  | ready
  | started
  | paused
  | terminated
deriving DecidableEq

/-- Shallow embedding of `struct dispd_encoder`.  `ref` is the reference count;
`freeCount` counts how many times `free(e)` has run (the C object is gone after
the first).  Each `sd_event_source` / `sd_bus_slot` pointer is modelled by a
boolean saying whether the registration is currently held.  `hasHandler`
models a non-NULL `handler` field. -/
structure Encoder where
  ref : Nat
  freeCount : Nat
  child_source : Bool
  child_term_time_source : Bool
  pipe_source : Bool
  name_disappeared_slot : Bool
  state_change_notify_slot : Bool
  bus : Bool
  name : Option String
  state : EncState
  hasHandler : Bool
deriving DecidableEq

/-- The five asynchronous registrations that each hold one controller
reference (cf. the `pending_watchers` set). -/
inductive RegKind
  | child
  | childTermTime
  | pipe
  | nameDisappeared
  | stateChangeNotify
deriving DecidableEq

/-- Whether the registration `k` is currently held. -/
def slotGet (e : Encoder) : RegKind → Bool
  | .child => e.child_source
  | .childTermTime => e.child_term_time_source
  | .pipe => e.pipe_source
  | .nameDisappeared => e.name_disappeared_slot
  | .stateChangeNotify => e.state_change_notify_slot

/-- Clear the registration `k` (set the pointer field to NULL). -/
def slotClear (e : Encoder) : RegKind → Encoder
  | .child => { e with child_source := false }
  | .childTermTime => { e with child_term_time_source := false }
  | .pipe => { e with pipe_source := false }
  | .nameDisappeared => { e with name_disappeared_slot := false }
  | .stateChangeNotify => { e with state_change_notify_slot := false }

/-- Install the registration `k` (the successful `sd_event_add_*` /
`sd_bus_add_match` stores a non-NULL pointer). -/
def slotSetTrue (e : Encoder) : RegKind → Encoder
  | .child => { e with child_source := true }
  | .childTermTime => { e with child_term_time_source := true }
  | .pipe => { e with pipe_source := true }
  | .nameDisappeared => { e with name_disappeared_slot := true }
  | .stateChangeNotify => { e with state_change_notify_slot := true }

/-- Number of currently held registrations. -/
def regCount (e : Encoder) : Nat :=
  e.child_source.toNat + e.child_term_time_source.toNat + e.pipe_source.toNat
    + e.name_disappeared_slot.toNat + e.state_change_notify_slot.toNat

/-- Embedding of `dispd_encoder_new`: calloc-zeroed object with `ref = 1`. -/
def dispd_encoder_new : Encoder :=
  { ref := 1
    freeCount := 0
    child_source := false
    child_term_time_source := false
    pipe_source := false
    name_disappeared_slot := false
    state_change_notify_slot := false
    bus := false
    name := none
    state := .null
    hasHandler := false }

/-- Embedding of `dispd_encoder_ref`: `assert_retv(0 < e->ref, NULL)` makes the
call a no-op on a dead object, otherwise the count is incremented. -/
def dispd_encoder_ref (e : Encoder) : Encoder :=
  if e.ref = 0 then e else { e with ref := e.ref + 1 }

/-- Embedding of `dispd_encoder_unref`: `assert_vret(0 < e->ref)` makes the
call a no-op on a dead object; otherwise the count is decremented and, on
reaching zero, the bus reference and the name are released and the object is
freed (recorded by bumping `freeCount`). -/
def dispd_encoder_unref (e : Encoder) : Encoder :=
  if e.ref = 0 then e
  else if e.ref = 1 then
    { e with ref := 0, freeCount := e.freeCount + 1, bus := false, name := none }
  else { e with ref := e.ref - 1 }

/-- The common pattern of `dispd_encoder_cleanup` / `dispd_encoder_close_pipe`:
if the registration is held, drop it (`sd_*_unref`, pointer := NULL) and
release the controller reference it was holding. -/
def releaseSlot (e : Encoder) (k : RegKind) : Encoder :=
  if slotGet e k then dispd_encoder_unref (slotClear e k) else e

/-- Embedding of `dispd_encoder_close_pipe` (the `close(fd)` side effect is
not modelled). -/
def dispd_encoder_close_pipe (e : Encoder) : Encoder :=
  releaseSlot e .pipe

/-- Embedding of `dispd_encoder_cleanup`, in source order: `child_source`,
`child_term_time_source`, `child_source` again (a duplicated block in the
source, dead after the first), the pipe, `name_disappeared_slot`,
`state_change_notify_slot`. -/
def dispd_encoder_cleanup (e : Encoder) : Encoder :=
  releaseSlot
    (releaseSlot
      (dispd_encoder_close_pipe
        (releaseSlot (releaseSlot (releaseSlot e .child) .childTermTime) .child))
      .nameDisappeared)
    .stateChangeNotify

/-! Basic preservation lemmas about the reference-counting operations. -/

theorem slotGet_ref (e : Encoder) (k : RegKind) :
    slotGet (dispd_encoder_ref e) k = slotGet e k := by
  unfold dispd_encoder_ref
  split_ifs <;> cases k <;> rfl

theorem slotGet_unref (e : Encoder) (k : RegKind) :
    slotGet (dispd_encoder_unref e) k = slotGet e k := by
  unfold dispd_encoder_unref
  split_ifs <;> cases k <;> rfl

theorem regCount_ref (e : Encoder) :
    regCount (dispd_encoder_ref e) = regCount e := by
  unfold dispd_encoder_ref regCount
  split_ifs <;> rfl

theorem regCount_unref (e : Encoder) :
    regCount (dispd_encoder_unref e) = regCount e := by
  unfold dispd_encoder_unref regCount
  split_ifs <;> rfl

theorem state_ref (e : Encoder) :
    (dispd_encoder_ref e).state = e.state := by
  unfold dispd_encoder_ref
  split_ifs <;> rfl

theorem state_unref (e : Encoder) :
    (dispd_encoder_unref e).state = e.state := by
  unfold dispd_encoder_unref
  split_ifs <;> rfl

theorem freeCount_ref (e : Encoder) :
    (dispd_encoder_ref e).freeCount = e.freeCount := by
  unfold dispd_encoder_ref
  split_ifs <;> rfl

theorem unref_of_ref (e : Encoder) :
    dispd_encoder_unref (dispd_encoder_ref e) = e := by
  cases e with
  | mk r fc cs ctts ps nds scns b n st hh =>
    unfold dispd_encoder_ref dispd_encoder_unref
    split_ifs <;> simp_all <;> omega

theorem regCount_slotClear (e : Encoder) (k : RegKind) :
    regCount (slotClear e k) + (slotGet e k).toNat = regCount e := by
  cases k <;> cases e <;> rename_i cs ctts ps nds scns _ _ _ _ <;>
    simp [slotClear, slotGet, regCount] <;> omega

theorem one_le_regCount (e : Encoder) (k : RegKind) (h : slotGet e k = true) :
    1 ≤ regCount e := by
  cases k <;> simp [slotGet] at h <;> simp [regCount, h] <;> omega

/-! The lifecycle state machine. -/

/-- Embedding of `dispd_encoder_notify_state_change`: nothing happens without
a handler; with one, the controller is ref'd across the (observer) call and
unref'd afterwards.  The observer itself is modelled as pure, so its
invocation is recorded in the returned list of notified states. -/
def dispd_encoder_notify_state_change (e : Encoder) (s : EncState) :
    Encoder × List EncState :=
  if e.hasHandler then
    (dispd_encoder_unref (dispd_encoder_ref e), [s])
  else (e, [])

/-- Embedding of `dispd_encoder_set_state`: a request equal to the current
state returns immediately; otherwise the state is stored and the observer is
notified of the new state. -/
def dispd_encoder_set_state (e : Encoder) (s : EncState) :
    Encoder × List EncState :=
  if e.state = s then (e, [])
  else dispd_encoder_notify_state_change { e with state := s } s

/-- Embedding of `dispd_encoder_kill_child`: returns 0 when no child-exit
watcher is active (nothing to signal), 1 when `kill(pid, SIGTERM)` succeeded,
and a negative errno result when the signal failed.  `killOk` abstracts the
success of the `kill` system call. -/
def dispd_encoder_kill_child (e : Encoder) (killOk : Bool) : Int :=
  if e.child_source = false then 0
  else if killOk then 1
  else -1

/-- Embedding of `on_child_terminated`: the child-exit callback forces the
state to TERMINATED and then tears every remaining registration down. -/
def on_child_terminated (e : Encoder) : Encoder × List EncState :=
  let p := dispd_encoder_set_state e .terminated
  (dispd_encoder_cleanup p.1, p.2)

/-- Embedding of `on_child_term_timeout`: the grace-timer callback just
attempts to signal-kill the child. -/
def on_child_term_timeout (e : Encoder) (killOk : Bool) : Int :=
  dispd_encoder_kill_child e killOk

/-- Embedding of the `switch(value)` in `on_encoder_properties_changed`:
the integer state code carried by a notification, decoded to a state, with
`none` for the `default:` (unknown, logged-and-ignored) branch. -/
def decode_state (v : Int) : Option EncState :=
  if v = 0 then some .null
  else if v = 1 then some .configured
  else if v = 2 then some .ready
  else if v = 3 then some .started
  else if v = 4 then some .paused
  else if v = 5 then some .terminated
  else none

/-- Embedding of the property-iteration loop of
`on_encoder_properties_changed`: the message body (after the skipped
interface-name string) is the list of (property name, integer value) pairs.
Entries whose name is not "State" are skipped; the first "State" entry is
decoded — an unknown code returns immediately with no effect, a known one is
applied via `dispd_encoder_set_state` and the loop breaks. -/
def on_encoder_properties_changed (e : Encoder) :
    List (String × Int) → Encoder × List EncState
  | [] => (e, [])
  | (n, v) :: rest =>
    if n ≠ "State" then on_encoder_properties_changed e rest
    else
      match decode_state v with
      | none => (e, [])
      | some s => dispd_encoder_set_state e s

/-- Value of the first entry named "State" in a notification body. -/
def firstStateEntry : List (String × Int) → Option Int
  | [] => none
  | (n, v) :: rest => if n = "State" then some v else firstStateEntry rest

/-- Embedding of `on_encoder_disappeared`: attempt a graceful kill; a failed
signal returns the error, a delivered signal returns 0 — in both cases
without teardown; only when no child was present to signal does the callback
tear the registrations down.  The boolean result records whether
`dispd_encoder_cleanup` ran. -/
def on_encoder_disappeared (e : Encoder) (killOk : Bool) : Encoder × Bool :=
  let r := dispd_encoder_kill_child e killOk
  if r < 0 then (e, false)
  else if r ≠ 0 then (e, false)
  else (dispd_encoder_cleanup e, true)

/-- A PropertiesChanged notification only reaches
`on_encoder_properties_changed` while the `state_change_notify_slot` bus
match is installed. -/
def deliver_properties_changed (e : Encoder) (l : List (String × Int)) :
    Encoder × List EncState :=
  if e.state_change_notify_slot then on_encoder_properties_changed e l
  else (e, [])

/-- A NameOwnerChanged (disappearance) notification only reaches
`on_encoder_disappeared` while the `name_disappeared_slot` bus match is
installed. -/
def deliver_disappeared (e : Encoder) (killOk : Bool) : Encoder × Bool :=
  if e.name_disappeared_slot then on_encoder_disappeared e killOk
  else (e, false)

/-- A child-exit event only reaches `on_child_terminated` while the
`child_source` event-loop registration is installed. -/
def deliver_child_terminated (e : Encoder) : Encoder × List EncState :=
  if e.child_source then on_child_terminated e else (e, [])

/-! Preservation lemmas for `releaseSlot` and `dispd_encoder_cleanup`. -/

theorem state_slotClear (e : Encoder) (k : RegKind) :
    (slotClear e k).state = e.state := by
  cases k <;> rfl

theorem state_releaseSlot (e : Encoder) (k : RegKind) :
    (releaseSlot e k).state = e.state := by
  unfold releaseSlot
  split_ifs with h
  · rw [state_unref, state_slotClear]
  · rfl

theorem state_cleanup (e : Encoder) :
    (dispd_encoder_cleanup e).state = e.state := by
  unfold dispd_encoder_cleanup dispd_encoder_close_pipe
  rw [state_releaseSlot, state_releaseSlot, state_releaseSlot,
    state_releaseSlot, state_releaseSlot, state_releaseSlot]

theorem slotGet_slotClear_self (e : Encoder) (k : RegKind) :
    slotGet (slotClear e k) k = false := by
  cases k <;> rfl

theorem slotGet_slotClear_other (e : Encoder) (k j : RegKind) (h : j ≠ k) :
    slotGet (slotClear e k) j = slotGet e j := by
  cases k <;> cases j <;> first | rfl | exact absurd rfl h

theorem slotGet_releaseSlot_self (e : Encoder) (k : RegKind) :
    slotGet (releaseSlot e k) k = false := by
  unfold releaseSlot
  split_ifs with h
  · rw [slotGet_unref, slotGet_slotClear_self]
  · simpa using h

theorem slotGet_releaseSlot_other (e : Encoder) (k j : RegKind) (h : j ≠ k) :
    slotGet (releaseSlot e k) j = slotGet e j := by
  unfold releaseSlot
  split_ifs with hs
  · rw [slotGet_unref, slotGet_slotClear_other e k j h]
  · rfl

theorem slotGet_cleanup (e : Encoder) (k : RegKind) :
    slotGet (dispd_encoder_cleanup e) k = false := by
  unfold dispd_encoder_cleanup dispd_encoder_close_pipe
  cases k with
  | child =>
    rw [slotGet_releaseSlot_other _ _ _ (by simp),
      slotGet_releaseSlot_other _ _ _ (by simp),
      slotGet_releaseSlot_other _ _ _ (by simp),
      slotGet_releaseSlot_self]
  | childTermTime =>
    rw [slotGet_releaseSlot_other _ _ _ (by simp),
      slotGet_releaseSlot_other _ _ _ (by simp),
      slotGet_releaseSlot_other _ _ _ (by simp),
      slotGet_releaseSlot_other _ _ _ (by simp),
      slotGet_releaseSlot_self]
  | pipe =>
    rw [slotGet_releaseSlot_other _ _ _ (by simp),
      slotGet_releaseSlot_other _ _ _ (by simp),
      slotGet_releaseSlot_self]
  | nameDisappeared =>
    rw [slotGet_releaseSlot_other _ _ _ (by simp),
      slotGet_releaseSlot_self]
  | stateChangeNotify =>
    rw [slotGet_releaseSlot_self]

theorem regCount_eq_sum (e : Encoder) :
    regCount e = (slotGet e .child).toNat + (slotGet e .childTermTime).toNat
      + (slotGet e .pipe).toNat + (slotGet e .nameDisappeared).toNat
      + (slotGet e .stateChangeNotify).toNat := rfl

theorem regCount_cleanup (e : Encoder) :
    regCount (dispd_encoder_cleanup e) = 0 := by
  rw [regCount_eq_sum]
  rw [slotGet_cleanup, slotGet_cleanup, slotGet_cleanup, slotGet_cleanup,
    slotGet_cleanup]
  rfl

/-! The handshake callback `on_unique_readable`. -/

/-- Outcome of the non-blocking `read` on the handshake pipe: `again` for
`EAGAIN`, `readErr` for any other error, `emptyRead` for a zero-length read,
`payload s` for a successful non-empty read of the worker's bus name. -/
inductive ReadOutcome
  | again
  | readErr
  | emptyRead
  | payload (s : String)
deriving DecidableEq

/-- Environment of one `on_unique_readable` invocation: the read outcome and
the success of `strdup`, `sd_bus_default_system` and the two
`sd_bus_add_match` calls. -/
structure HsEnv where
  rd : ReadOutcome
  strdupOk : Bool
  busOk : Bool
  match1Ok : Bool
  match2Ok : Bool
deriving DecidableEq

/-- Result of `on_unique_readable`: the controller, the recorded observer
invocations, the number of `dispd_encoder_kill_child` attempts, and the
value returned to the event loop. -/
structure HsRes where
  enc : Encoder
  obs : List EncState
  kills : Nat
  ret : Int
deriving DecidableEq

/-- The `error:` label of `on_unique_readable`: kill the child, then fall
through to `end:` which closes the pipe; `r` (negative) is returned. -/
def on_unique_readable_error (e : Encoder) : HsRes :=
  ⟨dispd_encoder_close_pipe e, [], 1, -1⟩

/-- Embedding of `on_unique_readable`.  On `EAGAIN` the callback returns 0
without touching anything (the pipe stays watched).  A failed or empty read
goes to the error path.  On a payload: the name is strdup'd, the system bus
is opened, the PropertiesChanged match is installed (the controller reference
for the match callback is taken while building the argument list, before the
installation can fail), then the NameOwnerChanged match is installed — whose
result is NOT checked: the callback proceeds to set the state to SPAWNED
either way and returns the second `sd_bus_add_match` result after closing the
pipe. -/
def on_unique_readable (e : Encoder) (env : HsEnv) : HsRes :=
  match env.rd with
  | .again => ⟨e, [], 0, 0⟩
  | .readErr => on_unique_readable_error e
  | .emptyRead => on_unique_readable_error e
  | .payload nm =>
    if env.strdupOk = false then on_unique_readable_error e
    else
      let e1 : Encoder := { e with name := some nm }
      if env.busOk = false then on_unique_readable_error e1
      else
        let e2 : Encoder := { e1 with bus := true }
        let e3 := dispd_encoder_ref e2
        if env.match1Ok = false then on_unique_readable_error e3
        else
          let e4 : Encoder := { e3 with state_change_notify_slot := true }
          let e5 := dispd_encoder_ref e4
          let e6 : Encoder :=
            if env.match2Ok then { e5 with name_disappeared_slot := true }
            else e5
          let p := dispd_encoder_set_state e6 .spawned
          ⟨dispd_encoder_close_pipe p.1, p.2, 0,
            if env.match2Ok then 0 else -1⟩

/-! The Configure request builder. -/

/-- The `enum wfd_encoder_config` keys appended by
`dispd_encoder_configure`. -/
inductive CfgKey
  | peer_address
  | rtp_port0
  | peer_rtcp_port
  | local_address
  | local_rtcp_port
  | cfgX
  | cfgY
  | width
  | height
deriving DecidableEq

/-- A variant value appended by `config_append`: a string ("s") or an
unsigned integer ("u"). -/
inductive CfgVal
  | s (v : String)
  | u (v : Nat)
deriving DecidableEq

/-- The display rectangle (`struct wfd_rectangle`). -/
structure WfdRect where
  x : Nat
  y : Nat
  width : Nat
  height : Nat
deriving DecidableEq

/-- The session data consulted by `dispd_encoder_configure`: the sink peer's
addresses, the stream's RTP/RTCP ports and the optional display
rectangle. -/
structure SessionCfg where
  remote_address : String
  local_address : String
  rtp_port : Nat
  rtcp_port : Nat
  rect : Option WfdRect
deriving DecidableEq

/-- The ordered entry list built into the Configure request body by
`dispd_encoder_configure`: peer address, RTP port, then — only when
`rtcp_port` is nonzero — the peer RTCP port, then the local address, then —
again only when `rtcp_port` is nonzero — the local RTCP port, then — only
when a display rectangle exists — its x, y, width and height. -/
def configEntries (s : SessionCfg) : List (CfgKey × CfgVal) :=
  [(.peer_address, .s s.remote_address), (.rtp_port0, .u s.rtp_port)]
    ++ (if s.rtcp_port ≠ 0 then [(.peer_rtcp_port, .u s.rtcp_port)] else [])
    ++ [(.local_address, .s s.local_address)]
    ++ (if s.rtcp_port ≠ 0 then [(.local_rtcp_port, .u s.rtcp_port)] else [])
    ++ (match s.rect with
        | none => []
        | some r => [(.cfgX, .u r.x), (.cfgY, .u r.y),
            (.width, .u r.width), (.height, .u r.height)])

/-- Result of `dispd_encoder_configure`: the request entries, the number of
`dispd_encoder_kill_child` attempts (none on any of its paths), and whether
the call succeeded. -/
structure CfgResult where
  entries : List (CfgKey × CfgVal)
  kills : Nat
  ok : Bool
deriving DecidableEq

/-- Embedding of `dispd_encoder_configure`: builds the entry list and issues
the Configure call; an RPC failure is logged and returned without any kill
attempt. -/
def dispd_encoder_configure (s : SessionCfg) (callOk : Bool) : CfgResult :=
  ⟨configEntries s, 0, callOk⟩

/-! The no-argument RPC wrappers. -/

/-- Embedding of `dispd_encoder_call`: issue the named method call; on
failure (either building or calling), kill the child once and return the
error.  The result is (number of kill attempts, success flag). -/
def dispd_encoder_call (e : Encoder) (method : String) (callOk : Bool) :
    Nat × Bool :=
  if callOk then (0, true) else (1, false)

/-- Embedding of `dispd_encoder_start`. -/
def dispd_encoder_start (e : Encoder) (callOk : Bool) : Nat × Bool :=
  dispd_encoder_call e "Start" callOk

/-- Embedding of `dispd_encoder_pause`. -/
def dispd_encoder_pause (e : Encoder) (callOk : Bool) : Nat × Bool :=
  dispd_encoder_call e "Pause" callOk

/-- Environment of one `dispd_encoder_stop` invocation: success of the Stop
RPC call, of `sd_event_now`, and of `sd_event_add_time`. -/
structure StopEnv where
  stopCallOk : Bool
  nowOk : Bool
  addTimeOk : Bool
deriving DecidableEq

/-- Result of `dispd_encoder_stop`: the controller, the number of
`dispd_encoder_kill_child` attempts, whether the grace timer was armed, the
armed delay in microseconds, and whether 0 was returned. -/
structure StopRes where
  enc : Encoder
  kills : Nat
  timerArmed : Bool
  timerDelay : Nat
  retZero : Bool
deriving DecidableEq

/-- Embedding of `dispd_encoder_stop`.  A failed Stop call returns its error
at once (the kill attempt already happened inside `dispd_encoder_call`) —
no timer is armed.  Otherwise the current time is read and the one-shot
timer is armed at now + 1000 * 1000 usec (one second); the controller
reference for the timer callback is taken while building the argument list.
Control then falls into the `error:` label, so a kill is attempted and `r`
is returned — 0 exactly when every step succeeded. -/
def dispd_encoder_stop (e : Encoder) (env : StopEnv) : StopRes :=
  let c := dispd_encoder_call e "Stop" env.stopCallOk
  if c.2 = false then ⟨e, c.1, false, 0, false⟩
  else if env.nowOk = false then ⟨e, c.1 + 1, false, 0, false⟩
  else
    let e1 := dispd_encoder_ref e
    if env.addTimeOk then
      ⟨{ e1 with child_term_time_source := true }, c.1 + 1, true,
        1000 * 1000, true⟩
    else ⟨e1, c.1 + 1, false, 0, false⟩

/-! Reference-count trace semantics for the lifetime invariant.  An operation
is one of: `acquire` (`dispd_encoder_ref` by a caller), `release`
(`dispd_encoder_unref` of a reference not held by a registration),
`register k` (a successful `sd_event_add_*` / `sd_bus_add_match`, which takes
one reference for the callback argument and stores the source/slot), and
`runCleanup` (`dispd_encoder_cleanup`, which retires every held registration
and drops its reference). -/

inductive Op
  | acquire
  | release
  | register (k : RegKind)
  | runCleanup
deriving DecidableEq

/-- Effect of one operation, built from the embedded source functions. -/
def applyOp (e : Encoder) : Op → Encoder
  | .acquire => dispd_encoder_ref e
  | .release => dispd_encoder_unref e
  | .register k => slotSetTrue (dispd_encoder_ref e) k
  | .runCleanup => dispd_encoder_cleanup e

/-- Preconditions under which the source performs the operation: references
are only taken and registrations only installed on a live object with that
slot empty, and a bare `release` only ever drops a reference that is not held
by a registration (registration references are dropped exclusively inside
`dispd_encoder_cleanup` / `dispd_encoder_close_pipe`).  Violating these is
the "release-without-acquire / double-release" programming error the design
rules out. -/
def okOp (e : Encoder) : Op → Bool
  | .acquire => decide (0 < e.ref)
  | .release => decide (regCount e < e.ref)
  | .register k => decide (0 < e.ref) && !(slotGet e k)
  | .runCleanup => true

/-- A trace is admissible when every operation meets its precondition at the
point it runs. -/
def okTrace (e : Encoder) : List Op → Bool
  | [] => true
  | o :: rest => okOp e o && okTrace (applyOp e o) rest

/-- Run a trace of operations. -/
def runOps (e : Encoder) : List Op → Encoder
  | [] => e
  | o :: rest => runOps (applyOp e o) rest

/-- The lifetime invariant: either the object is live — never freed, at least
one reference, and at least one reference per held registration — or it has
been freed exactly once, with no reference and no registration left. -/
def Good (e : Encoder) : Prop :=
  (e.freeCount = 0 ∧ regCount e ≤ e.ref ∧ 1 ≤ e.ref)
    ∨ (e.freeCount = 1 ∧ e.ref = 0 ∧ regCount e = 0)

theorem good_new : Good dispd_encoder_new := by
  left
  exact ⟨rfl, by decide, by decide⟩

theorem freeCount_slotClear (e : Encoder) (k : RegKind) :
    (slotClear e k).freeCount = e.freeCount := by
  cases k <;> rfl

theorem ref_slotClear (e : Encoder) (k : RegKind) :
    (slotClear e k).ref = e.ref := by
  cases k <;> rfl

theorem ref_slotSetTrue (e : Encoder) (k : RegKind) :
    (slotSetTrue e k).ref = e.ref := by
  cases k <;> rfl

theorem freeCount_slotSetTrue (e : Encoder) (k : RegKind) :
    (slotSetTrue e k).freeCount = e.freeCount := by
  cases k <;> rfl

theorem regCount_slotSetTrue (e : Encoder) (k : RegKind)
    (h : slotGet e k = false) :
    regCount (slotSetTrue e k) = regCount e + 1 := by
  cases k <;> simp [slotGet] at h <;>
    simp [slotSetTrue, regCount, h] <;> omega

theorem ref_unref (x : Encoder) (h : 0 < x.ref) :
    (dispd_encoder_unref x).ref = x.ref - 1 := by
  unfold dispd_encoder_unref
  split_ifs <;> (try simp) <;> omega

theorem freeCount_unref (x : Encoder) (h : 0 < x.ref) :
    (dispd_encoder_unref x).freeCount
      = if x.ref = 1 then x.freeCount + 1 else x.freeCount := by
  unfold dispd_encoder_unref
  split_ifs <;> (try simp) <;> omega

theorem good_releaseSlot (e : Encoder) (k : RegKind) (h : Good e) :
    Good (releaseSlot e k) := by
  unfold releaseSlot
  split_ifs with hs
  · have hreg := one_le_regCount e k hs
    have hclear := regCount_slotClear e k
    rw [hs] at hclear
    simp only [Bool.toNat_true] at hclear
    rcases h with ⟨hf, hle, hr⟩ | ⟨hf, hr, hc⟩
    · have hrefc : (slotClear e k).ref = e.ref := ref_slotClear e k
      have hpos : 0 < (slotClear e k).ref := by omega
      have h1 := ref_unref (slotClear e k) hpos
      have h2 := freeCount_unref (slotClear e k) hpos
      have h3 := regCount_unref (slotClear e k)
      rw [hrefc] at h1 h2
      rw [freeCount_slotClear] at h2
      by_cases hone : e.ref = 1
      · right
        rw [if_pos hone] at h2
        refine ⟨by omega, by omega, by omega⟩
      · left
        rw [if_neg hone] at h2
        refine ⟨by omega, by omega, by omega⟩
    · omega
  · exact h

theorem good_cleanup (e : Encoder) (h : Good e) :
    Good (dispd_encoder_cleanup e) := by
  unfold dispd_encoder_cleanup dispd_encoder_close_pipe
  exact good_releaseSlot _ _ (good_releaseSlot _ _ (good_releaseSlot _ _
    (good_releaseSlot _ _ (good_releaseSlot _ _ (good_releaseSlot _ _ h)))))

theorem good_applyOp (e : Encoder) (o : Op) (hg : Good e)
    (ho : okOp e o = true) : Good (applyOp e o) := by
  cases o with
  | acquire =>
    simp only [okOp, decide_eq_true_eq] at ho
    simp only [applyOp]
    rcases hg with ⟨hf, hle, hr⟩ | ⟨hf, hr, hc⟩
    · left
      have hrr : (dispd_encoder_ref e).ref = e.ref + 1 := by
        unfold dispd_encoder_ref
        rw [if_neg (by omega)]
      have h2 := regCount_ref e
      have h3 := freeCount_ref e
      exact ⟨by omega, by omega, by omega⟩
    · omega
  | release =>
    simp only [okOp, decide_eq_true_eq] at ho
    simp only [applyOp]
    rcases hg with ⟨hf, hle, hr⟩ | ⟨hf, hr, hc⟩
    · have hpos : 0 < e.ref := by omega
      have h1 := ref_unref e hpos
      have h2 := freeCount_unref e hpos
      have h3 := regCount_unref e
      by_cases hone : e.ref = 1
      · right
        rw [if_pos hone] at h2
        refine ⟨by omega, by omega, by omega⟩
      · left
        rw [if_neg hone] at h2
        refine ⟨by omega, by omega, by omega⟩
    · omega
  | register k =>
    simp only [okOp, Bool.and_eq_true, decide_eq_true_eq,
      Bool.not_eq_eq_eq_not, Bool.not_true] at ho
    obtain ⟨hr0, hk⟩ := ho
    rcases hg with ⟨hf, hle, hr⟩ | ⟨hf, hr, hc⟩
    · simp only [applyOp]
      left
      have hrr : (dispd_encoder_ref e).ref = e.ref + 1 := by
        unfold dispd_encoder_ref
        rw [if_neg (by omega)]
      have hkk : slotGet (dispd_encoder_ref e) k = false := by
        rw [slotGet_ref]; exact hk
      have h1 := regCount_slotSetTrue (dispd_encoder_ref e) k hkk
      have h2 := regCount_ref e
      have h3 := freeCount_ref e
      have h4 := ref_slotSetTrue (dispd_encoder_ref e) k
      have h5 := freeCount_slotSetTrue (dispd_encoder_ref e) k
      refine ⟨by omega, by omega, by omega⟩
    · omega
  | runCleanup =>
    exact good_cleanup e hg

theorem good_runOps (ops : List Op) (e : Encoder) (hg : Good e)
    (ht : okTrace e ops = true) : Good (runOps e ops) := by
  induction ops generalizing e with
  | nil => exact hg
  | cons o rest ih =>
    simp only [okTrace, Bool.and_eq_true] at ht
    exact ih (applyOp e o) (good_applyOp e o hg ht.1) ht.2

theorem slotGet_slotSetTrue_self (e : Encoder) (k : RegKind) :
    slotGet (slotSetTrue e k) k = true := by
  cases k <;> rfl

/-- Exact accounting for one registration retirement while some other
reference is still outstanding: the controller stays live, exactly one
reference is dropped when (and only when) the slot was held, and the slot is
cleared. -/
theorem releaseSlot_exact (e : Encoder) (k : RegKind)
    (h : regCount e < e.ref) :
    (releaseSlot e k).ref + (slotGet e k).toNat = e.ref
      ∧ (releaseSlot e k).freeCount = e.freeCount
      ∧ regCount (releaseSlot e k) + (slotGet e k).toNat = regCount e
      ∧ regCount (releaseSlot e k) < (releaseSlot e k).ref := by
  unfold releaseSlot
  split_ifs with hs
  · have hreg := one_le_regCount e k hs
    have hclear := regCount_slotClear e k
    rw [hs] at hclear
    simp only [Bool.toNat_true] at hclear
    have hrefc := ref_slotClear e k
    have hpos : 0 < (slotClear e k).ref := by omega
    have h1 := ref_unref _ hpos
    have h2 := freeCount_unref _ hpos
    have h3 := regCount_unref (slotClear e k)
    rw [hrefc] at h1 h2
    rw [freeCount_slotClear] at h2
    rw [if_neg (by omega)] at h2
    rw [hs]
    simp only [Bool.toNat_true]
    refine ⟨by omega, by omega, by omega, by omega⟩
  · have hs0 : slotGet e k = false := by simpa using hs
    rw [hs0]
    simp only [Bool.toNat_false]
    refine ⟨by omega, by trivial, by omega, by omega⟩

/-- Exact accounting for `dispd_encoder_cleanup` under an outstanding caller
reference: every held registration is retired, each dropping exactly one
reference, and the object is not freed. -/
theorem cleanup_exact (e : Encoder) (h : regCount e < e.ref) :
    (dispd_encoder_cleanup e).ref + regCount e = e.ref
      ∧ regCount (dispd_encoder_cleanup e) = 0
      ∧ (dispd_encoder_cleanup e).freeCount = e.freeCount := by
  have s1 := releaseSlot_exact e .child h
  have s2 := releaseSlot_exact _ .childTermTime s1.2.2.2
  have s3 := releaseSlot_exact _ .child s2.2.2.2
  have s4 := releaseSlot_exact _ .pipe s3.2.2.2
  have s5 := releaseSlot_exact _ .nameDisappeared s4.2.2.2
  have s6 := releaseSlot_exact _ .stateChangeNotify s5.2.2.2
  have p1 : slotGet (releaseSlot e .child) .childTermTime
      = slotGet e .childTermTime :=
    slotGet_releaseSlot_other e .child .childTermTime (by decide)
  have p2 : slotGet (releaseSlot (releaseSlot e .child) .childTermTime) .child
      = false := by
    rw [slotGet_releaseSlot_other _ _ _ (by decide), slotGet_releaseSlot_self]
  have p3 : slotGet (releaseSlot (releaseSlot (releaseSlot e .child)
      .childTermTime) .child) .pipe = slotGet e .pipe := by
    rw [slotGet_releaseSlot_other _ _ _ (by decide),
      slotGet_releaseSlot_other _ _ _ (by decide),
      slotGet_releaseSlot_other _ _ _ (by decide)]
  have p4 : slotGet (releaseSlot (releaseSlot (releaseSlot (releaseSlot e
      .child) .childTermTime) .child) .pipe) .nameDisappeared
      = slotGet e .nameDisappeared := by
    rw [slotGet_releaseSlot_other _ _ _ (by decide),
      slotGet_releaseSlot_other _ _ _ (by decide),
      slotGet_releaseSlot_other _ _ _ (by decide),
      slotGet_releaseSlot_other _ _ _ (by decide)]
  have p5 : slotGet (releaseSlot (releaseSlot (releaseSlot (releaseSlot
      (releaseSlot e .child) .childTermTime) .child) .pipe) .nameDisappeared)
      .stateChangeNotify = slotGet e .stateChangeNotify := by
    rw [slotGet_releaseSlot_other _ _ _ (by decide),
      slotGet_releaseSlot_other _ _ _ (by decide),
      slotGet_releaseSlot_other _ _ _ (by decide),
      slotGet_releaseSlot_other _ _ _ (by decide),
      slotGet_releaseSlot_other _ _ _ (by decide)]
  have hsum := regCount_eq_sum e
  rw [p1] at s2
  rw [p2] at s3
  rw [p3] at s4
  rw [p4] at s5
  rw [p5] at s6
  have hreg0 := regCount_cleanup e
  simp only [dispd_encoder_cleanup, dispd_encoder_close_pipe] at hreg0 ⊢
  obtain ⟨a1, a2, -, -⟩ := s1
  obtain ⟨b1, b2, -, -⟩ := s2
  obtain ⟨c1, c2, -, -⟩ := s3
  simp only [Bool.toNat_false, Nat.add_zero] at c1
  obtain ⟨d1, d2, -, -⟩ := s4
  obtain ⟨f1, f2, -, -⟩ := s5
  obtain ⟨g1, g2, -, -⟩ := s6
  refine ⟨by omega, hreg0, by omega⟩

theorem notify_fst (x : Encoder) (s : EncState) :
    (dispd_encoder_notify_state_change x s).1 = x := by
  unfold dispd_encoder_notify_state_change
  split_ifs
  · exact unref_of_ref x
  · rfl

theorem set_state_fst (e : Encoder) (s : EncState) :
    (dispd_encoder_set_state e s).1
      = if e.state = s then e else { e with state := s } := by
  unfold dispd_encoder_set_state
  split_ifs with h
  · rfl
  · rw [notify_fst]

theorem state_set_state (e : Encoder) (s : EncState) :
    (dispd_encoder_set_state e s).1.state = s := by
  rw [set_state_fst]
  split_ifs with h
  · exact h
  · rfl

/-! Concrete fixtures used by witnesses and counterexamples. -/

/-- A controller that has reached TERMINATED through a remote (code 5)
notification: both bus matches are still installed, the caller and the two
matches hold references, and an observer is registered. -/
def encTerminated : Encoder :=
  { ref := 3
    freeCount := 0
    child_source := false
    child_term_time_source := false
    pipe_source := false
    name_disappeared_slot := true
    state_change_notify_slot := true
    bus := true
    name := some ":1.42"
    state := .terminated
    hasHandler := true }

/-- A freshly spawned controller right before the handshake callback runs:
the child-exit watcher and the pipe watcher are installed (each holding a
reference) and the caller holds one more. -/
def encAfterSpawn : Encoder :=
  { ref := 3
    freeCount := 0
    child_source := true
    child_term_time_source := false
    pipe_source := true
    name_disappeared_slot := false
    state_change_notify_slot := false
    bus := false
    name := none
    state := .null
    hasHandler := true }

/-- A registration/acquire/release trace exercising the whole lifecycle. -/
def c2_trace : List Op :=
  [.register .child, .register .pipe, .acquire, .release, .runCleanup,
    .release]

/-- C1 counterexample: a controller whose state reached TERMINATED via a
remote notification still has its state-change subscription installed, so a
subsequent "State"=3 notification transitions it to STARTED and invokes the
observer — the TERMINATED state is not terminal in the code. -/
theorem terminated_not_terminal_cex :
    encTerminated.state = EncState.terminated
      ∧ (deliver_properties_changed encTerminated [("State", 3)]).1.state
          = EncState.started
      ∧ (deliver_properties_changed encTerminated [("State", 3)]).2
          = [EncState.started] := by
  decide

/-- C1 (amended): once TERMINATED is reached through the child-exit path,
`on_child_terminated` has torn down every watcher and subscription, so no
further state-change notification, disappearance notification or child-exit
event can be delivered: the state stays TERMINATED and the observer never
fires again.  (`dispd_encoder_set_state` itself rejects only same-state
transitions, so TERMINATED reached solely by a remote notification is not
terminal — see the counterexample.) -/
theorem terminated_via_child_exit_is_final (e : Encoder)
    (l : List (String × Int)) (killOk : Bool) :
    ((on_child_terminated e).1.state = EncState.terminated)
      ∧ regCount (on_child_terminated e).1 = 0
      ∧ deliver_properties_changed (on_child_terminated e).1 l
          = ((on_child_terminated e).1, [])
      ∧ deliver_disappeared (on_child_terminated e).1 killOk
          = ((on_child_terminated e).1, false)
      ∧ deliver_child_terminated (on_child_terminated e).1
          = ((on_child_terminated e).1, []) := by
  have hstate : (on_child_terminated e).1.state = EncState.terminated := by
    simp only [on_child_terminated]
    rw [state_cleanup, state_set_state]
  have hscn : (on_child_terminated e).1.state_change_notify_slot = false :=
    slotGet_cleanup (dispd_encoder_set_state e .terminated).1 .stateChangeNotify
  have hnd : (on_child_terminated e).1.name_disappeared_slot = false :=
    slotGet_cleanup (dispd_encoder_set_state e .terminated).1 .nameDisappeared
  have hcs : (on_child_terminated e).1.child_source = false :=
    slotGet_cleanup (dispd_encoder_set_state e .terminated).1 .child
  refine ⟨hstate, ?_, ?_, ?_, ?_⟩
  · simp only [on_child_terminated]
    exact regCount_cleanup _
  · simp only [deliver_properties_changed, hscn]
    rfl
  · simp only [deliver_disappeared, hnd]
    rfl
  · simp only [deliver_child_terminated, hcs]
    rfl

/-- C2: along every admissible trace of acquire/release/register/cleanup
operations starting from a fresh controller, the object is freed at most
once, it is freed exactly when the reference count has reached zero, freeing
can only happen after every registration has been retired; moreover each
registration takes exactly one reference when installed and
`dispd_encoder_cleanup` retires every held registration, releasing exactly
one reference per registration, without freeing a controller that still has
an outstanding caller reference. -/
theorem refcount_lifetime_invariant (ops : List Op)
    (h : okTrace dispd_encoder_new ops = true) :
    ((runOps dispd_encoder_new ops).freeCount ≤ 1)
      ∧ ((runOps dispd_encoder_new ops).freeCount = 1 →
          (runOps dispd_encoder_new ops).ref = 0
            ∧ regCount (runOps dispd_encoder_new ops) = 0)
      ∧ ((runOps dispd_encoder_new ops).ref ≠ 0 →
          (runOps dispd_encoder_new ops).freeCount = 0)
      ∧ (∀ e : Encoder, ∀ k : RegKind, 0 < e.ref → slotGet e k = false →
          (applyOp e (Op.register k)).ref = e.ref + 1
            ∧ slotGet (applyOp e (Op.register k)) k = true
            ∧ regCount (applyOp e (Op.register k)) = regCount e + 1)
      ∧ (∀ e : Encoder, regCount e < e.ref →
          (dispd_encoder_cleanup e).ref + regCount e = e.ref
            ∧ regCount (dispd_encoder_cleanup e) = 0
            ∧ (dispd_encoder_cleanup e).freeCount = e.freeCount) := by
  have hg := good_runOps ops dispd_encoder_new good_new h
  refine ⟨?_, ?_, ?_, ?_, ?_⟩
  · rcases hg with ⟨hf, -, -⟩ | ⟨hf, -, -⟩ <;> omega
  · intro h1
    rcases hg with ⟨hf, -, -⟩ | ⟨-, hr, hc⟩
    · omega
    · exact ⟨hr, hc⟩
  · intro h1
    rcases hg with ⟨hf, -, -⟩ | ⟨-, hr, -⟩
    · exact hf
    · omega
  · intro e k hr hk
    have hrr : (dispd_encoder_ref e).ref = e.ref + 1 := by
      unfold dispd_encoder_ref
      rw [if_neg (by omega)]
    have hkk : slotGet (dispd_encoder_ref e) k = false := by
      rw [slotGet_ref]
      exact hk
    refine ⟨?_, ?_, ?_⟩
    · simp only [applyOp]
      rw [ref_slotSetTrue, hrr]
    · simp only [applyOp]
      exact slotGet_slotSetTrue_self _ k
    · simp only [applyOp]
      rw [regCount_slotSetTrue _ _ hkk, regCount_ref]
  · intro e hlt
    exact cleanup_exact e hlt

theorem refcount_lifetime_invariant_witness :
    okTrace dispd_encoder_new c2_trace = true
      ∧ (runOps dispd_encoder_new c2_trace).freeCount ≤ 1 :=
  ⟨by decide, (refcount_lifetime_invariant c2_trace (by decide)).1⟩

/-- The property loop processes exactly the first entry named "State". -/
theorem on_epc_eq (e : Encoder) (l : List (String × Int)) :
    on_encoder_properties_changed e l =
      match firstStateEntry l with
      | none => (e, [])
      | some v =>
        match decode_state v with
        | none => (e, [])
        | some s => dispd_encoder_set_state e s := by
  induction l with
  | nil => rfl
  | cons hd rest ih =>
    obtain ⟨n, v⟩ := hd
    by_cases hn : n = "State"
    · simp [on_encoder_properties_changed, firstStateEntry, hn]
    · simp [on_encoder_properties_changed, firstStateEntry, hn, ih]

/-- C6: an unrecognized state code in a notification changes nothing and
never invokes the observer; codes 0..5 decode to NULL, CONFIGURED, READY,
STARTED, PAUSED, TERMINATED respectively; and only the first entry named
"State" is consulted. -/
theorem state_code_decoding (e : Encoder) (l : List (String × Int)) :
    (firstStateEntry l = none → on_encoder_properties_changed e l = (e, []))
      ∧ (∀ v : Int, firstStateEntry l = some v → decode_state v = none →
          on_encoder_properties_changed e l = (e, []))
      ∧ (∀ v : Int, ∀ s : EncState, firstStateEntry l = some v →
          decode_state v = some s →
          on_encoder_properties_changed e l = dispd_encoder_set_state e s)
      ∧ decode_state 0 = some EncState.null
      ∧ decode_state 1 = some EncState.configured
      ∧ decode_state 2 = some EncState.ready
      ∧ decode_state 3 = some EncState.started
      ∧ decode_state 4 = some EncState.paused
      ∧ decode_state 5 = some EncState.terminated
      ∧ (∀ v : Int, v < 0 ∨ 5 < v → decode_state v = none) := by
  refine ⟨?_, ?_, ?_, by decide, by decide, by decide, by decide, by decide,
    by decide, ?_⟩
  · intro h
    rw [on_epc_eq, h]
  · intro v h1 h2
    rw [on_epc_eq, h1]
    simp [h2]
  · intro v s h1 h2
    rw [on_epc_eq, h1]
    simp [h2]
  · intro v hv
    unfold decode_state
    split_ifs <;> (try rfl) <;> omega

theorem state_code_decoding_witness :
    on_encoder_properties_changed dispd_encoder_new
        [("Volume", 7), ("State", 9), ("State", 3)]
      = (dispd_encoder_new, []) :=
  (state_code_decoding dispd_encoder_new
      [("Volume", 7), ("State", 9), ("State", 3)]).2.1 9 (by decide)
    (by decide)

/-- C7: requesting the state the controller is already in is a no-op —
nothing is stored and the observer is not invoked. -/
theorem set_state_idempotent (e : Encoder) (s : EncState)
    (h : e.state = s) :
    dispd_encoder_set_state e s = (e, []) := by
  unfold dispd_encoder_set_state
  rw [if_pos h]

theorem set_state_idempotent_witness :
    dispd_encoder_set_state encTerminated EncState.terminated
      = (encTerminated, []) :=
  set_state_idempotent encTerminated EncState.terminated rfl

/-- C8: while a child-exit watcher is active and the termination signal is
delivered, the disappearance callback leaves the controller untouched (no
teardown); it tears the registrations down exactly when no child was present
to signal; and the teardown of all registrations does happen in the
child-exit callback. -/
theorem disappearance_defers_teardown (e : Encoder) (killOk : Bool) :
    (e.child_source = true → killOk = true →
        on_encoder_disappeared e killOk = (e, false))
      ∧ ((on_encoder_disappeared e killOk).2 = true →
          e.child_source = false)
      ∧ (e.child_source = false →
          on_encoder_disappeared e killOk = (dispd_encoder_cleanup e, true))
      ∧ regCount (on_child_terminated e).1 = 0
      ∧ slotGet (on_child_terminated e).1 .child = false := by
  refine ⟨?_, ?_, ?_, ?_, ?_⟩
  · intro hc hk
    simp [on_encoder_disappeared, dispd_encoder_kill_child, hc, hk]
  · intro h2
    by_cases hc : e.child_source = true
    · exfalso
      by_cases hk : killOk = true
      · simp [on_encoder_disappeared, dispd_encoder_kill_child, hc, hk] at h2
      · have hk0 : killOk = false := by simpa using hk
        simp [on_encoder_disappeared, dispd_encoder_kill_child, hc, hk0] at h2
    · simpa using hc
  · intro hc
    simp [on_encoder_disappeared, dispd_encoder_kill_child, hc]
  · simp only [on_child_terminated]
    exact regCount_cleanup _
  · exact slotGet_cleanup (dispd_encoder_set_state e .terminated).1 .child

theorem disappearance_defers_teardown_witness :
    on_encoder_disappeared encAfterSpawn true = (encAfterSpawn, false) :=
  (disappearance_defers_teardown encAfterSpawn true).1 rfl rfl

/-- Handshake environment where everything succeeds except the second
`sd_bus_add_match` (the disappearance subscription). -/
def hsEnvMatchTwoFail : HsEnv :=
  { rd := .payload ":1.77"
    strdupOk := true
    busOk := true
    match1Ok := true
    match2Ok := false }

/-- Handshake environment where every step succeeds. -/
def hsEnvAllOk : HsEnv :=
  { rd := .payload ":1.77"
    strdupOk := true
    busOk := true
    match1Ok := true
    match2Ok := true }

/-- Handshake environment with a zero-length read (worker closed the pipe
without sending its name). -/
def hsEnvEmptyRead : HsEnv :=
  { rd := .emptyRead
    strdupOk := true
    busOk := true
    match1Ok := true
    match2Ok := true }

/-- Handshake environment where the first `sd_bus_add_match` fails. -/
def hsEnvMatchOneFail : HsEnv :=
  { rd := .payload ":1.77"
    strdupOk := true
    busOk := true
    match1Ok := false
    match2Ok := true }

/-- C3 evidence: `on_unique_readable` checks the results of the read, of
`sd_bus_default_system` and of the first `sd_bus_add_match`, but not of the
second one.  When the disappearance subscription fails to install, the
callback still transitions the controller to SPAWNED and fires the observer,
while `name_disappeared_slot` stays empty and the callback returns the
negative error code.  (For contrast: with every step successful the state
also becomes SPAWNED with both subscriptions installed, and an empty read or
a failed first subscription leaves the state at NULL.) -/
theorem spawned_despite_failed_second_subscription :
    (on_unique_readable encAfterSpawn hsEnvMatchTwoFail).enc.state
        = EncState.spawned
      ∧ (on_unique_readable encAfterSpawn
          hsEnvMatchTwoFail).enc.name_disappeared_slot = false
      ∧ (on_unique_readable encAfterSpawn hsEnvMatchTwoFail).ret < 0
      ∧ (on_unique_readable encAfterSpawn hsEnvMatchTwoFail).obs
          = [EncState.spawned]
      ∧ (on_unique_readable encAfterSpawn hsEnvAllOk).enc.state
          = EncState.spawned
      ∧ (on_unique_readable encAfterSpawn
          hsEnvAllOk).enc.name_disappeared_slot = true
      ∧ (on_unique_readable encAfterSpawn hsEnvEmptyRead).enc.state
          = EncState.null
      ∧ (on_unique_readable encAfterSpawn hsEnvEmptyRead).kills = 1
      ∧ (on_unique_readable encAfterSpawn hsEnvMatchOneFail).enc.state
          = EncState.null := by
  decide

/-- A failed Stop RPC call. -/
def stopEnvCallFail : StopEnv :=
  { stopCallOk := false, nowOk := true, addTimeOk := true }

/-- A fully successful stop sequence. -/
def stopEnvAllOk : StopEnv :=
  { stopCallOk := true, nowOk := true, addTimeOk := true }

/-- C4 counterexample: when the Stop RPC call fails, `dispd_encoder_stop`
returns the error at once — the grace timer is NOT armed, contradicting
"arms a timer after the Stop call's reply regardless of whether the call
succeeded" (the kill attempt did happen, inside `dispd_encoder_call`). -/
theorem stop_failure_arms_no_timer_cex :
    (dispd_encoder_stop encAfterSpawn stopEnvCallFail).timerArmed = false
      ∧ (dispd_encoder_stop encAfterSpawn stopEnvCallFail).kills = 1 := by
  decide

/-- C4 (amended): every `stop()` results in at least one signal-kill
attempt, whether the Stop call succeeds or fails; the one-second (1000*1000
usec) one-shot grace timer is armed exactly when the Stop call, the clock
read and the timer registration all succeed — in particular a failed Stop
call returns without arming it; and the timer callback signal-kills the
child if one is still supervised. -/
theorem stop_kill_and_grace_timer (e : Encoder) (env : StopEnv) :
    (1 ≤ (dispd_encoder_stop e env).kills)
      ∧ ((dispd_encoder_stop e env).timerArmed = true ↔
          env.stopCallOk = true ∧ env.nowOk = true ∧ env.addTimeOk = true)
      ∧ ((dispd_encoder_stop e env).timerArmed = true →
          (dispd_encoder_stop e env).timerDelay = 1000 * 1000)
      ∧ (env.stopCallOk = false →
          (dispd_encoder_stop e env).timerArmed = false
            ∧ (dispd_encoder_stop e env).retZero = false)
      ∧ (∀ killOk : Bool,
          on_child_term_timeout e killOk = dispd_encoder_kill_child e killOk)
      ∧ (e.child_source = true → on_child_term_timeout e true = 1) := by
  obtain ⟨co, no, ao⟩ := env
  refine ⟨?_, ?_, ?_, ?_, fun killOk => rfl, ?_⟩
  · cases co <;> cases no <;> cases ao <;>
      simp [dispd_encoder_stop, dispd_encoder_call]
  · cases co <;> cases no <;> cases ao <;>
      simp [dispd_encoder_stop, dispd_encoder_call]
  · cases co <;> cases no <;> cases ao <;>
      simp [dispd_encoder_stop, dispd_encoder_call]
  · cases co <;> cases no <;> cases ao <;>
      simp [dispd_encoder_stop, dispd_encoder_call]
  · intro hc
    simp [on_child_term_timeout, dispd_encoder_kill_child, hc]

theorem stop_kill_and_grace_timer_witness :
    (dispd_encoder_stop encAfterSpawn stopEnvCallFail).timerArmed = false
      ∧ (dispd_encoder_stop encAfterSpawn stopEnvCallFail).retZero
          = false :=
  (stop_kill_and_grace_timer encAfterSpawn stopEnvCallFail).2.2.2.1 rfl

/-- C10: when the Stop call succeeds and the grace timer is armed
successfully, `stop()` still immediately attempts one signal-kill of the
child before returning 0, in addition to the delayed timer fallback. -/
theorem stop_success_immediate_kill (e : Encoder) (env : StopEnv)
    (h1 : env.stopCallOk = true) (h2 : env.nowOk = true)
    (h3 : env.addTimeOk = true) :
    (dispd_encoder_stop e env).kills = 1
      ∧ (dispd_encoder_stop e env).timerArmed = true
      ∧ (dispd_encoder_stop e env).retZero = true := by
  obtain ⟨co, no, ao⟩ := env
  simp only at h1 h2 h3
  subst h1
  subst h2
  subst h3
  simp [dispd_encoder_stop, dispd_encoder_call]

theorem stop_success_immediate_kill_witness :
    (dispd_encoder_stop encAfterSpawn stopEnvAllOk).kills = 1
      ∧ (dispd_encoder_stop encAfterSpawn stopEnvAllOk).timerArmed = true
      ∧ (dispd_encoder_stop encAfterSpawn stopEnvAllOk).retZero = true :=
  stop_success_immediate_kill encAfterSpawn stopEnvAllOk rfl rfl rfl

/-- C9: a failed Start/Pause/Stop RPC call is always paired with a kill
attempt before the error is returned, while a failed Configure call returns
the error with no kill attempt. -/
theorem rpc_failure_kill_policy (e : Encoder) (s : SessionCfg) :
    ((dispd_encoder_start e false).1 = 1
        ∧ (dispd_encoder_start e false).2 = false)
      ∧ ((dispd_encoder_pause e false).1 = 1
        ∧ (dispd_encoder_pause e false).2 = false)
      ∧ (∀ env : StopEnv, env.stopCallOk = false →
          1 ≤ (dispd_encoder_stop e env).kills
            ∧ (dispd_encoder_stop e env).retZero = false)
      ∧ ((dispd_encoder_configure s false).kills = 0
        ∧ (dispd_encoder_configure s false).ok = false) := by
  refine ⟨⟨rfl, rfl⟩, ⟨rfl, rfl⟩, ?_, ⟨rfl, rfl⟩⟩
  intro env h
  obtain ⟨co, no, ao⟩ := env
  simp only at h
  subst h
  simp [dispd_encoder_stop, dispd_encoder_call]

/-- A session with RTCP port and display rectangle present. -/
def sessionFull : SessionCfg :=
  { remote_address := "10.0.0.5"
    local_address := "10.0.0.2"
    rtp_port := 1991
    rtcp_port := 1992
    rect := some { x := 0, y := 0, width := 1920, height := 1080 } }

/-- A session with RTCP port zero and no display rectangle. -/
def sessionNoExtras : SessionCfg :=
  { remote_address := "10.0.0.5"
    local_address := "10.0.0.2"
    rtp_port := 1991
    rtcp_port := 0
    rect := none }

theorem rpc_failure_kill_policy_witness :
    1 ≤ (dispd_encoder_stop encAfterSpawn stopEnvCallFail).kills :=
  ((rpc_failure_kill_policy encAfterSpawn sessionNoExtras).2.2.1
    stopEnvCallFail rfl).1

/-- C5: the Configure request omits both RTCP-port entries when the RTCP
port is zero and omits all four rectangle entries when the session has no
display rectangle; when present, entries appear in the order peer address,
RTP port, peer RTCP port, local address, local RTCP port, rectangle
(x, y, width, height). -/
theorem configure_omission_and_order (s : SessionCfg) :
    (s.rtcp_port = 0 → s.rect = none →
        (configEntries s).map Prod.fst
          = [CfgKey.peer_address, CfgKey.rtp_port0, CfgKey.local_address])
      ∧ (∀ r : WfdRect, s.rtcp_port = 0 → s.rect = some r →
          (configEntries s).map Prod.fst
            = [CfgKey.peer_address, CfgKey.rtp_port0, CfgKey.local_address,
                CfgKey.cfgX, CfgKey.cfgY, CfgKey.width, CfgKey.height])
      ∧ (s.rtcp_port ≠ 0 → s.rect = none →
          configEntries s
            = [(CfgKey.peer_address, CfgVal.s s.remote_address),
                (CfgKey.rtp_port0, CfgVal.u s.rtp_port),
                (CfgKey.peer_rtcp_port, CfgVal.u s.rtcp_port),
                (CfgKey.local_address, CfgVal.s s.local_address),
                (CfgKey.local_rtcp_port, CfgVal.u s.rtcp_port)])
      ∧ (∀ r : WfdRect, s.rtcp_port ≠ 0 → s.rect = some r →
          configEntries s
            = [(CfgKey.peer_address, CfgVal.s s.remote_address),
                (CfgKey.rtp_port0, CfgVal.u s.rtp_port),
                (CfgKey.peer_rtcp_port, CfgVal.u s.rtcp_port),
                (CfgKey.local_address, CfgVal.s s.local_address),
                (CfgKey.local_rtcp_port, CfgVal.u s.rtcp_port),
                (CfgKey.cfgX, CfgVal.u r.x), (CfgKey.cfgY, CfgVal.u r.y),
                (CfgKey.width, CfgVal.u r.width),
                (CfgKey.height, CfgVal.u r.height)])
      ∧ (∀ c : Bool, (dispd_encoder_configure s c).entries = configEntries s
          ∧ (dispd_encoder_configure s c).kills = 0) := by
  refine ⟨?_, ?_, ?_, ?_, fun c => ⟨rfl, rfl⟩⟩
  · intro h0 hr
    simp [configEntries, h0, hr]
  · intro r h0 hr
    simp [configEntries, h0, hr]
  · intro h0 hr
    simp [configEntries, h0, hr]
  · intro r h0 hr
    simp [configEntries, h0, hr]

theorem configure_omission_and_order_witness :
    (configEntries sessionNoExtras).map Prod.fst
      = [CfgKey.peer_address, CfgKey.rtp_port0, CfgKey.local_address] :=
  (configure_omission_and_order sessionNoExtras).1 rfl rfl

end DispdEncoder
